import Mathlib

/-!
Shallow embedding of BakaGit's Repository State & Command Layer
(`src/bakagit/core/git_manager.py`, `src/bakagit/core/utils.py`, and the
branch/commit/clone/merge flows of `src/bakagit/gui/main_window.py` and
`src/bakagit/gui/dialogs/clone_dialog.py`).

External GitPython / filesystem / subprocess behaviour is modelled by
oracle structures (`RepoModel`, `ExtCalls`, `CloneEnv`): each field is the
outcome of one external call, `Except PyExn α` standing for a Python value
or a raised exception.  The Python methods themselves are translated as
total Lean functions over these oracles, so totality of a definition is
exactly the source's "every exception on this path is caught" property.
-/

namespace BakaGit

/-- A raised Python exception, identified by its message/kind. -/
abbrev PyExn := String

/-- Python whitespace characters stripped by `str.strip()` (ASCII subset). -/
def isPySpace (c : Char) : Bool :=
  c = ' ' || c = '\t' || c = '\n' || c = '\x0d' || c = '\x0b' || c = '\x0c'

/-- `str.strip()` on character lists. -/
def stripChars (s : List Char) : List Char :=
  ((s.dropWhile isPySpace).reverse.dropWhile isPySpace).reverse

/-- Python `s.strip()`. -/
def pyStrip (s : String) : String :=
  String.mk (stripChars s.toList)

/-- Whether `pat` occurs as a contiguous sublist of `s` (Python `pat in s`). -/
def containsSub (pat : List Char) : List Char → Bool
  | [] => pat.isEmpty
  | c :: t => pat.isPrefixOf (c :: t) || containsSub pat t

/-- Python `s.replace(pat, rep)` (all occurrences), on character lists. -/
def replaceSub (pat rep : List Char) (s : List Char) : List Char :=
  match h : s with
  | [] => []
  | c :: t =>
    if hp : pat.isPrefixOf s ∧ 0 < pat.length then
      rep ++ replaceSub pat rep (s.drop pat.length)
    else
      c :: replaceSub pat rep t
  termination_by s.length
  decreasing_by
  · have hpre : pat <+: s := by
      have := hp.1
      rw [h] at this ⊢
      exact List.isPrefixOf_iff_prefix.mp this
    have hlen := hpre.length_le
    simp only [h, List.length_drop, List.length_cons] at *
    omega
  · simp [h]

/-- Python `s.replace(pat, rep)` on strings. -/
def pyReplace (s pat rep : String) : String :=
  String.mk (replaceSub pat.toList rep.toList s.toList)

/-- Python `s.startswith(c)` for a one-character pattern. -/
def startsChar (s : String) (c : Char) : Bool := [c].isPrefixOf s.toList

/-- Python `s.endswith(c)` for a one-character pattern. -/
def endsChar (s : String) (c : Char) : Bool := [c].isSuffixOf s.toList

/-- Python `s.split('/')[-1]`. -/
def lastSlashComponent (s : String) : String :=
  match (s.toList.splitOn '/').getLast? with
  | some l => String.mk l
  | none => s

/-- Oracle for the external GitPython repository object bound by the
manager: each field is the result of one external call made by a
`GitManager` method (value, or raised exception). Argument-taking fields
model calls whose outcome depends on the argument the code passes. -/
structure RepoModel where
  /-- `repo.is_dirty()` -/
  is_dirty : Except PyExn Bool
  /-- `repo.untracked_files` -/
  untracked_files : Except PyExn (List String)
  /-- `[item.a_path for item in repo.index.diff(None)]` -/
  diffNone : Except PyExn (List String)
  /-- `repo.active_branch.name` -/
  active_branch : Except PyExn String
  /-- `[item.a_path for item in repo.index.diff("HEAD")]` -/
  diffHead : Except PyExn (List String)
  /-- `[ref.name for ref in repo.heads]` (also `repo.branches`) -/
  headsNames : Except PyExn (List String)
  /-- `[remote.name for remote in repo.remotes]` -/
  remotesNames : Except PyExn (List String)
  /-- `[ref.name for ref in repo.remotes[0].refs]` -/
  remoteZeroRefs : Except PyExn (List String)
  /-- every `ref.name` seen by `for remote in repo.remotes: for ref in remote.refs` -/
  allRemoteRefs : Except PyExn (List String)
  /-- `repo.index.add(file_paths)` -/
  indexAdd : List String → Except PyExn Unit
  /-- `repo.git.add('.')` -/
  gitAddAll : Except PyExn Unit
  /-- `repo.index.commit(message=…, author=…)`; `none` author when omitted -/
  indexCommit : String → Option (String × String) → Except PyExn Unit
  /-- `repo.git.commit('--amend', '-m', msg)` -/
  gitCommitAmend : String → Except PyExn Unit
  /-- `repo.remote(remote_name)` -/
  remoteLookup : String → Except PyExn Unit
  /-- `remote.push(arg)` / `remote.push(refspec=arg)` -/
  remotePush : String → Except PyExn Unit
  /-- `remote.pull(branch_name)` -/
  remotePull : String → Except PyExn Unit
  /-- `remote.fetch()` -/
  remoteFetch : Except PyExn Unit
  /-- `remote.push(tags=True)` -/
  remotePushAllTags : Except PyExn Unit
  /-- `repo.create_head(branch_name)` -/
  createHead : String → Except PyExn Unit
  /-- `new_branch.checkout()` -/
  checkoutHead : Except PyExn Unit
  /-- `repo.git.checkout(branch_name)` -/
  gitCheckout : String → Except PyExn Unit
  /-- `repo.create_remote(name, url)` -/
  createRemote : String → String → Except PyExn Unit
  /-- `repo.delete_remote(name)` -/
  deleteRemote : String → Except PyExn Unit
  /-- `[tag.name for tag in repo.tags]` -/
  tagsNames : Except PyExn (List String)
  /-- `repo.commit(commit_hash)`, returning the commit id -/
  commitLookup : String → Except PyExn String
  /-- `repo.head.commit`, returning the commit id -/
  headCommit : Except PyExn String
  /-- `repo.create_tag(tag_name, ref=commit[, message=message])` -/
  createTagRef : String → String → Option String → Except PyExn Unit
  /-- `repo.delete_tag(tag_name)` -/
  deleteTagRef : String → Except PyExn Unit
  /-- `repo.iter_commits(max_count=n)` as raw commit data -/
  iterCommits : Nat → Except PyExn (List (String × String × String × Int × Nat))
  /-- `repo.delete_head(branch_name)` -/
  deleteHead : String → Except PyExn Unit
  /-- `repo.merge_base(current, branch)` (a list of commit ids) -/
  mergeBase : String → String → Except PyExn (List String)
  /-- `repo.index.merge_tree(branch, base=merge_base)` -/
  mergeTree : String → String → Except PyExn Unit
  /-- `repo.heads[old].rename(new)` -/
  renameHead : String → String → Except PyExn Unit

/-- The mutable state of a `GitManager`: `self.repo` and `self.repo_path`
(`GitManager.__init__` sets both to `None`). -/
structure GMState where
  repo : Option RepoModel
  repo_path : Option String

/-- The state of a freshly constructed `GitManager()` (no path argument). -/
def initialState : GMState := ⟨none, none⟩

/-- `git.Repo(path)`: a repository object, one of the two caught
not-a-repository exceptions, or some other (uncaught) exception. -/
inductive GitOpenResult where
  | ok (r : RepoModel)
  | invalidGitRepository
  | noSuchPath
  | otherExn (e : PyExn)

/-- Oracle for the external calls of the binding operations. -/
structure ExtCalls where
  /-- `git.Repo(path)` -/
  gitRepoOpen : String → GitOpenResult
  /-- `if not os.path.exists(path): os.makedirs(path)` / `Path(path).mkdir` -/
  makedirs : String → Except PyExn Unit
  /-- `subprocess.run(['git','init',…], cwd=path).returncode` -/
  gitInitRc : String → Bool → Except PyExn Int
  /-- `git.Repo.clone_from(url, target)` -/
  cloneFrom : String → String → Except PyExn RepoModel
  /-- ensure the parent directory of `path` exists (`os.makedirs(parent)`) -/
  ensureParent : String → Except PyExn Unit

/-- `GitManager.load_repository`: `self.repo = git.Repo(repo_path)` and
`self.repo_path = repo_path` on success; on the two caught exceptions both
fields are cleared and `False` is returned; any other exception propagates
(`.error`) leaving the state unchanged. -/
def load_repository (st : GMState) (ext : ExtCalls) (path : String) :
    Except PyExn Bool × GMState :=
  match ext.gitRepoOpen path with
  | .ok r => (.ok true, ⟨some r, some path⟩)
  | .invalidGitRepository => (.ok false, ⟨none, none⟩)
  | .noSuchPath => (.ok false, ⟨none, none⟩)
  | .otherExn e => (.error e, st)

/-- `GitManager.init_repository(path, bare)` (the later definition, line
645): make the directory, run `git init`, and on a zero return code reload
the repository via `load_repository`; every exception is caught. -/
def init_repository (st : GMState) (ext : ExtCalls) (path : String) (bare : Bool) :
    Bool × GMState :=
  match ext.makedirs path with
  | .error _ => (false, st)
  | .ok _ =>
    match ext.gitInitRc path bare with
    | .error _ => (false, st)
    | .ok rc =>
      if rc = 0 then
        match load_repository st ext path with
        | (.ok _, st2) => (true, st2)
        | (.error _, st2) => (false, st2)
      else (false, st)

/-- `GitManager.clone_repository(url, target_path)`:
`self.repo = git.Repo.clone_from(url, target_path)`;
`self.repo_path = target_path`; exceptions caught, state untouched. -/
def clone_repository (st : GMState) (ext : ExtCalls) (url target : String) :
    Bool × GMState :=
  match ext.cloneFrom url target with
  | .ok r => (true, ⟨some r, some target⟩)
  | .error _ => (false, st)

/-- `GitManager.clone_repository_with_progress(url, path)`: ensure the
parent directory, clone (into a local variable), then `load_repository`;
returns `True` regardless of the reload's outcome; exceptions caught. -/
def clone_repository_with_progress (st : GMState) (ext : ExtCalls)
    (url path : String) : Bool × GMState :=
  match ext.ensureParent path with
  | .error _ => (false, st)
  | .ok _ =>
    match ext.cloneFrom url path with
    | .error _ => (false, st)
    | .ok _ =>
      match load_repository st ext path with
      | (.ok _, st2) => (true, st2)
      | (.error _, st2) => (false, st2)

/-- The dictionary built by a successful `GitManager.get_status` call. -/
structure StatusSnapshot where
  is_dirty : Bool
  untracked_files : List String
  modified_files : List String
  current_branch : String
  local_branches : List String
  remote_branches : List String
  staged_files : List String
  deriving DecidableEq, Repr

/-- The return value of `GitManager.get_status`: the empty dict `{}` or a
fully keyed status dict. -/
inductive StatusResult where
  | empty
  | snapshot (s : StatusSnapshot)
  deriving DecidableEq, Repr

/-- `GitManager.get_status`: `{}` when unbound; the initial dict evaluates
`is_dirty()`, `untracked_files` and `index.diff(None)` under the outer
`try` (any failure there returns `{}`); the four guarded sub-queries each
have their own `try/except` defaulting the field (`'master'` for the
current branch, `[]` for the rest). -/
def get_status (st : GMState) : StatusResult :=
  match st.repo with
  | none => .empty
  | some r =>
    match r.is_dirty, r.untracked_files, r.diffNone with
    | .ok d, .ok u, .ok m =>
      .snapshot
        { is_dirty := d
          untracked_files := u
          modified_files := m
          current_branch :=
            match r.active_branch with
            | .ok b => b
            | .error _ => "master"
          local_branches :=
            match r.headsNames with
            | .ok l => l
            | .error _ => []
          remote_branches :=
            match r.remotesNames with
            | .ok [] => []
            | .ok (_ :: _) =>
              match r.remoteZeroRefs with
              | .ok l => l
              | .error _ => []
            | .error _ => []
          staged_files :=
            match r.diffHead with
            | .ok l => l
            | .error _ => [] }
    | _, _, _ => .empty

/-- `GitManager.add_files(file_paths)`. -/
def add_files (st : GMState) (file_paths : List String) : Bool :=
  match st.repo with
  | none => false
  | some r =>
    match r.indexAdd file_paths with
    | .ok _ => true
    | .error _ => false

/-- `GitManager.add_file(file_path)` — delegates to `add_files`. -/
def add_file (st : GMState) (file_path : String) : Bool :=
  add_files st [file_path]

/-- `GitManager.stage_all()` — `repo.git.add('.')`. -/
def stage_all (st : GMState) : Bool :=
  match st.repo with
  | none => false
  | some r =>
    match r.gitAddAll with
    | .ok _ => true
    | .error _ => false

/-- `GitManager.commit(message, author_name, author_email)`: the author is
attached only when both pieces are truthy; the message is forwarded to
`repo.index.commit` unvalidated. -/
def commit (st : GMState) (message : String)
    (author_name author_email : Option String) : Bool :=
  match st.repo with
  | none => false
  | some r =>
    let author : Option (String × String) :=
      match author_name, author_email with
      | some n, some e => if n ≠ "" ∧ e ≠ "" then some (n, e) else none
      | _, _ => none
    match r.indexCommit message author with
    | .ok _ => true
    | .error _ => false

/-- `GitManager.push(remote_name, branch_name)` — pushes
`refspec=f'{b}:{b}'`, the branch defaulting to the active branch. -/
def push (st : GMState) (remote_name : String) (branch_name : Option String) :
    Bool :=
  match st.repo with
  | none => false
  | some r =>
    match r.remoteLookup remote_name with
    | .error _ => false
    | .ok _ =>
      match (match branch_name with
             | some b => Except.ok b
             | none => r.active_branch : Except PyExn String) with
      | .error _ => false
      | .ok b =>
        match r.remotePush (b ++ ":" ++ b) with
        | .ok _ => true
        | .error _ => false

/-- `GitManager.pull(remote_name, branch_name)`. -/
def pull (st : GMState) (remote_name : String) (branch_name : Option String) :
    Bool :=
  match st.repo with
  | none => false
  | some r =>
    match r.remoteLookup remote_name with
    | .error _ => false
    | .ok _ =>
      match (match branch_name with
             | some b => Except.ok b
             | none => r.active_branch : Except PyExn String) with
      | .error _ => false
      | .ok b =>
        match r.remotePull b with
        | .ok _ => true
        | .error _ => false

/-- `GitManager.create_branch(branch_name, checkout)`: `create_head` then
optionally `checkout`; no branch-name validation of any kind. -/
def create_branch (st : GMState) (branch_name : String) (checkout : Bool) :
    Bool :=
  match st.repo with
  | none => false
  | some r =>
    match r.createHead branch_name with
    | .error _ => false
    | .ok _ =>
      if checkout then
        match r.checkoutHead with
        | .ok _ => true
        | .error _ => false
      else true

/-- `GitManager.checkout_branch(branch_name)` (the later definition, line
792): list the local branches, refuse a name that is not among them, then
`repo.git.checkout(branch_name)`. -/
def checkout_branch (st : GMState) (branch_name : String) : Bool :=
  match st.repo with
  | none => false
  | some r =>
    match r.headsNames with
    | .error _ => false
    | .ok names =>
      if ¬ names.contains branch_name then false
      else
        match r.gitCheckout branch_name with
        | .ok _ => true
        | .error _ => false

/-- `GitManager.get_remotes()`. -/
def get_remotes (st : GMState) : List String :=
  match st.repo with
  | none => []
  | some r =>
    match r.remotesNames with
    | .ok l => l
    | .error _ => []

/-- `GitManager.push_to_remote(remote_name, branch_name)` (the later
definition): default the branch first, then look up the remote and push
the plain branch name. -/
def push_to_remote (st : GMState) (remote_name : String)
    (branch_name : Option String) : Bool :=
  match st.repo with
  | none => false
  | some r =>
    match (match branch_name with
           | some b => Except.ok b
           | none => r.active_branch : Except PyExn String) with
    | .error _ => false
    | .ok b =>
      match r.remoteLookup remote_name with
      | .error _ => false
      | .ok _ =>
        match r.remotePush b with
        | .ok _ => true
        | .error _ => false

/-- `GitManager.pull_from_remote(remote_name, branch_name)` (the later
definition). -/
def pull_from_remote (st : GMState) (remote_name : String)
    (branch_name : Option String) : Bool :=
  match st.repo with
  | none => false
  | some r =>
    match (match branch_name with
           | some b => Except.ok b
           | none => r.active_branch : Except PyExn String) with
    | .error _ => false
    | .ok b =>
      match r.remoteLookup remote_name with
      | .error _ => false
      | .ok _ =>
        match r.remotePull b with
        | .ok _ => true
        | .error _ => false

/-- `GitManager.fetch_from_remote(remote_name)`. -/
def fetch_from_remote (st : GMState) (remote_name : String) : Bool :=
  match st.repo with
  | none => false
  | some r =>
    match r.remoteLookup remote_name with
    | .error _ => false
    | .ok _ =>
      match r.remoteFetch with
      | .ok _ => true
      | .error _ => false

/-- `GitManager.add_remote(name, url)`. -/
def add_remote (st : GMState) (name url : String) : Bool :=
  match st.repo with
  | none => false
  | some r =>
    match r.createRemote name url with
    | .ok _ => true
    | .error _ => false

/-- `GitManager.remove_remote(name)`. -/
def remove_remote (st : GMState) (name : String) : Bool :=
  match st.repo with
  | none => false
  | some r =>
    match r.deleteRemote name with
    | .ok _ => true
    | .error _ => false

/-- `GitManager.get_tags()` — sorted tag names. -/
def get_tags (st : GMState) : List String :=
  match st.repo with
  | none => []
  | some r =>
    match r.tagsNames with
    | .ok tags => tags.mergeSort (fun a b => a ≤ b)
    | .error _ => []

/-- `GitManager.create_tag(tag_name, message, commit_hash)`: resolve the
target commit (given hash or `HEAD`), then create an annotated or
lightweight tag. -/
def create_tag (st : GMState) (tag_name : String) (message : Option String)
    (commit_hash : Option String) : Bool :=
  match st.repo with
  | none => false
  | some r =>
    match (match commit_hash with
           | some h => r.commitLookup h
           | none => r.headCommit) with
    | .error _ => false
    | .ok c =>
      match r.createTagRef tag_name c message with
      | .ok _ => true
      | .error _ => false

/-- `GitManager.delete_tag(tag_name)`. -/
def delete_tag (st : GMState) (tag_name : String) : Bool :=
  match st.repo with
  | none => false
  | some r =>
    match r.deleteTagRef tag_name with
    | .ok _ => true
    | .error _ => false

/-- `GitManager.push_tag(tag_name, remote_name)`. -/
def push_tag (st : GMState) (tag_name : String) (remote_name : String) : Bool :=
  match st.repo with
  | none => false
  | some r =>
    match r.remoteLookup remote_name with
    | .error _ => false
    | .ok _ =>
      match r.remotePush tag_name with
      | .ok _ => true
      | .error _ => false

/-- `GitManager.push_all_tags(remote_name)`. -/
def push_all_tags (st : GMState) (remote_name : String) : Bool :=
  match st.repo with
  | none => false
  | some r =>
    match r.remoteLookup remote_name with
    | .error _ => false
    | .ok _ =>
      match r.remotePushAllTags with
      | .ok _ => true
      | .error _ => false

/-- One record produced by `GitManager.get_commit_history`. -/
structure CommitInfo where
  hash : String
  short_hash : String
  message : String
  author : String
  date : Int
  files_changed : Nat
  deriving DecidableEq, Repr

/-- `GitManager.get_commit_history(max_count)` — maps each raw commit to a
record with the first 8 characters of the hash and the stripped message. -/
def get_commit_history (st : GMState) (max_count : Nat) : List CommitInfo :=
  match st.repo with
  | none => []
  | some r =>
    match r.iterCommits max_count with
    | .error _ => []
    | .ok raw =>
      raw.map (fun c =>
        { hash := c.1
          short_hash := String.mk (c.1.toList.take 8)
          message := pyStrip c.2.1
          author := c.2.2.1
          date := c.2.2.2.1
          files_changed := c.2.2.2.2 })

/-- `GitManager.get_branches()`: local branch names, then every remote ref
whose full name is unseen contributes its last path component when that is
new and not `HEAD`; the result is sorted. -/
def get_branches (st : GMState) : List String :=
  match st.repo with
  | none => []
  | some r =>
    match r.headsNames, r.allRemoteRefs with
    | .ok locals, .ok rrefs =>
      let step := fun (acc : List String) (refName : String) =>
        if acc.contains refName then acc
        else
          let bn := lastSlashComponent refName
          if ¬ acc.contains bn ∧ bn ≠ "HEAD" then acc ++ [bn] else acc
      (rrefs.foldl step locals).mergeSort (fun a b => a ≤ b)
    | _, _ => []

/-- `GitManager.get_current_branch()` — `""` when unbound or on failure. -/
def get_current_branch (st : GMState) : String :=
  match st.repo with
  | none => ""
  | some r =>
    match r.active_branch with
    | .ok b => b
    | .error _ => ""

/-! ### GUI layer (`main_window.py`, `clone_dialog.py`) and `utils.py` -/

/-- The character blacklist of `MainWindow._is_valid_branch_name`
(`invalid_chars = [' ', '~', '^', ':', '?', '*', '[', '\\']`). -/
def invalid_chars : List Char := [' ', '~', '^', ':', '?', '*', '[', '\\']

/-- `MainWindow._is_valid_branch_name(name)`: no blacklisted character, no
leading/trailing `.` or `/`, no `".."`, and not blank after stripping. -/
def is_valid_branch_name (name : String) : Bool :=
  if invalid_chars.any (fun c => name.toList.contains c) then false
  else if startsChar name '.' || startsChar name '/'
       || endsChar name '.' || endsChar name '/' then false
  else if containsSub ['.', '.'] name.toList then false
  else if pyStrip name = "" then false
  else true

/-- Outcome of the `MainWindow.create_branch` handler. -/
inductive CreateBranchOutcome where
  | noRepoWarning
  | cancelled
  | invalidNameWarning
  | branchExistsWarning
  | created (name : String) (switched : Bool)
  | createFailedWarning
  | uncaughtExn (e : PyExn)
  deriving DecidableEq, Repr

/-- `MainWindow.create_branch()`: `dialogInput` is the `QInputDialog`
result (`none` when cancelled), `checkoutAnswer` the user's answer to the
switch-after-create question.  Validation runs on the stripped input
before any call into `GitManager`. -/
def create_branch_ui (st : GMState) (dialogInput : Option String)
    (checkoutAnswer : Bool) : CreateBranchOutcome :=
  match st.repo with
  | none => .noRepoWarning
  | some r =>
    match dialogInput with
    | none => .cancelled
    | some raw =>
      if pyStrip raw = "" then .cancelled
      else
        let branch_name := pyStrip raw
        if ¬ is_valid_branch_name branch_name then .invalidNameWarning
        else
          match r.headsNames with
          | .error e => .uncaughtExn e
          | .ok existing =>
            if existing.contains branch_name then .branchExistsWarning
            else
              if create_branch st branch_name checkoutAnswer then
                .created branch_name checkoutAnswer
              else .createFailedWarning

/-- Outcome of the `MainWindow.rename_branch` handler. -/
inductive RenameBranchOutcome where
  | cancelled
  | invalidNameWarning
  | nameConflictWarning
  | renamed (oldName newName : String)
  | renameError (e : PyExn)
  deriving DecidableEq, Repr

/-- `MainWindow.rename_branch(old_name)` with the dialog's text as
`dialogInput` (`none` when cancelled): strips the input, validates, checks
for a name conflict, then renames via the repository object. -/
def rename_branch_ui (st : GMState) (old_name : String)
    (dialogInput : Option String) : RenameBranchOutcome :=
  match st.repo with
  | none =>
    match dialogInput with
    | none => .cancelled
    | some raw =>
      if pyStrip raw = "" ∨ pyStrip raw = old_name then .cancelled
      else if ¬ is_valid_branch_name (pyStrip raw) then .invalidNameWarning
      else .renameError "AttributeError"
  | some r =>
    match dialogInput with
    | none => .cancelled
    | some raw =>
      if pyStrip raw = "" ∨ pyStrip raw = old_name then .cancelled
      else
        let new_name := pyStrip raw
        if ¬ is_valid_branch_name new_name then .invalidNameWarning
        else
          match r.headsNames with
          | .error e => .renameError e
          | .ok existing =>
            if existing.contains new_name then .nameConflictWarning
            else
              match r.renameHead old_name new_name with
              | .ok _ => .renamed old_name new_name
              | .error e => .renameError e

/-- Outcome of the `MainWindow.delete_branch` /
`MainWindow.delete_branch_by_name` handlers. -/
inductive DeleteBranchOutcome where
  | noSelection
  | currentBranchRefusal
  | cancelled
  | deleted (name : String)
  | deleteError (name : String) (e : PyExn)
  deriving DecidableEq, Repr

/-- `MainWindow.delete_branch_by_name(branch_name)`: after the user
confirms, the name is handed straight to `repo.delete_head` — there is no
check against the currently checked-out branch at this level. -/
def delete_branch_by_name (st : GMState) (branch_name : String)
    (confirm : Bool) : DeleteBranchOutcome :=
  if ¬ confirm then .cancelled
  else
    match st.repo with
    | none => .deleteError branch_name "AttributeError"
    | some r =>
      match r.deleteHead branch_name with
      | .ok _ => .deleted branch_name
      | .error e => .deleteError branch_name e

/-- `MainWindow.delete_branch()`: parses the selected list item's text,
refuses when the item text starts with `'* '` (the current-branch
marker), otherwise delegates to `delete_branch_by_name`. -/
def delete_branch (st : GMState) (selectedText : Option String)
    (confirm : Bool) : DeleteBranchOutcome :=
  match selectedText with
  | none => .noSelection
  | some txt =>
    let branch_name := pyStrip (pyReplace (pyReplace txt "* " "") "  " "")
    if ['*', ' '].isPrefixOf txt.toList then .currentBranchRefusal
    else delete_branch_by_name st branch_name confirm

/-- `self.git_manager.repo.index.conflicts`, as evaluated by
`MainWindow.merge_branch_to_current`.  GitPython's `IndexFile` defines no
`conflicts` attribute (conflict inspection goes through
`IndexFile.unmerged_blobs()`; an `index.conflicts` collection is pygit2's
API, not GitPython's), and `LazyMixin.__getattr__` raises
`AttributeError` for unknown attributes — so this access always raises. -/
def indexConflictsAttr : Except PyExn Bool :=
  .error "AttributeError: IndexFile has no attribute conflicts"

/-- Outcome of the `MainWindow.merge_branch_to_current` handler. -/
inductive MergeOutcome where
  | userDeclined
  | conflictWarning
  | merged (parents : List String)
  | mergeError (e : PyExn)
  deriving DecidableEq, Repr

/-- `MainWindow.merge_branch_to_current(branch_name)`: read the current
branch, confirm, compute `merge_base(current, branch)[0]`, run
`index.merge_tree`, test `index.conflicts`, and on no conflict commit with
`parent_commits=(head.commit, repo.commit(branch_name))`.  Any exception
is caught and reported as a merge failure. -/
def merge_branch_to_current (st : GMState) (branch_name : String)
    (confirm : Bool) : MergeOutcome :=
  match st.repo with
  | none => .mergeError "AttributeError"
  | some r =>
    match r.active_branch with
    | .error e => .mergeError e
    | .ok current_branch =>
      if ¬ confirm then .userDeclined
      else
        match r.mergeBase current_branch branch_name with
        | .error e => .mergeError e
        | .ok [] => .mergeError "IndexError: list index out of range"
        | .ok (base :: _) =>
          match r.mergeTree branch_name base with
          | .error e => .mergeError e
          | .ok _ =>
            match indexConflictsAttr with
            | .error e => .mergeError e
            | .ok conflicts =>
              if conflicts then .conflictWarning
              else
                match r.headCommit, r.commitLookup branch_name with
                | .ok hc, .ok bc =>
                  match r.indexCommit
                      ("Merge branch " ++ branch_name ++ " into " ++ current_branch)
                      none with
                  | .ok _ => .merged [hc, bc]
                  | .error e => .mergeError e
                | .error e, _ => .mergeError e
                | _, .error e => .mergeError e

/-- Outcome of the `MainWindow.commit_changes_enhanced` handler, together
with the list of messages passed to an external commit call (empty when
the handler returned before committing). -/
inductive CommitUiOutcome where
  | emptyMessageWarning
  | nothingStagedWarning
  | committed
  | coreFailedWarning
  | exnCaught (e : PyExn)
  deriving DecidableEq, Repr

/-- `MainWindow.commit_changes_enhanced()`: strips the message box's text
and warns on an empty result; warns when `index.diff("HEAD")` is empty and
the amend box is unchecked; otherwise commits via `git commit --amend` or
`GitManager.commit`.  The second component records each message handed to
an external commit call. -/
def commit_changes_enhanced (st : GMState) (uiText : String)
    (amendChecked : Bool) : CommitUiOutcome × List String :=
  let commit_msg := pyStrip uiText
  if commit_msg = "" then (.emptyMessageWarning, [])
  else
    match st.repo with
    | none => (.exnCaught "AttributeError", [])
    | some r =>
      match r.diffHead with
      | .error e => (.exnCaught e, [])
      | .ok staged =>
        if staged = [] ∧ ¬ amendChecked then (.nothingStagedWarning, [])
        else
          if amendChecked then
            match r.gitCommitAmend commit_msg with
            | .ok _ => (.committed, [commit_msg])
            | .error e => (.exnCaught e, [commit_msg])
          else
            if commit st commit_msg none none then (.committed, [commit_msg])
            else (.coreFailedWarning, [commit_msg])

/-- The substring patterns of `utils.is_valid_git_url`. -/
def git_patterns : List String :=
  ["https://github.com/", "https://gitlab.com/", "https://bitbucket.org/",
   "git@github.com:", "git@gitlab.com:", "git@bitbucket.org:",
   "https://git.", "git://", "ssh://git@"]

/-- `utils.is_valid_git_url(url)`: non-empty, and some pattern occurs in
the lower-cased url, or the url ends with `.git`. -/
def is_valid_git_url (url : String) : Bool :=
  if url = "" then false
  else
    git_patterns.any
        (fun p => containsSub p.toList (url.toList.map Char.toLower))
      || ['.', 'g', 'i', 't'].isSuffixOf url.toList

/-- One externally visible side effect of `CloneWorker.run`. -/
inductive CloneEvent where
  | mkdirTarget
  | networkClone
  deriving DecidableEq, Repr

/-- Filesystem oracle for `CloneWorker.run`. -/
structure CloneEnv where
  /-- `Path(target_path).exists()` -/
  targetExists : Bool
  /-- `any(target_dir.iterdir())` -/
  targetNonempty : Bool
  /-- `target_dir.mkdir(parents=True, exist_ok=True)` -/
  mkdirResult : Except PyExn Unit
  /-- the external behaviour behind `GitManager.clone_repository` -/
  ext : ExtCalls

/-- `CloneWorker.run()`: validate the url first; then require the target
directory absent (creating it) or empty; then clone through a fresh
`GitManager`.  Returns the `finished` signal's payload and the trace of
filesystem/network effects. -/
def clone_worker_run (url target_path : String) (env : CloneEnv) :
    (Bool × String) × List CloneEvent :=
  if ¬ is_valid_git_url url then
    ((false, "invalid url"), [])
  else
    if env.targetExists then
      if env.targetNonempty then ((false, "target not empty"), [])
      else
        (((clone_repository initialState env.ext url target_path).1,
          target_path), [.networkClone])
    else
      match env.mkdirResult with
      | .error e => ((false, e), [])
      | .ok _ =>
        (((clone_repository initialState env.ext url target_path).1,
          target_path), [.mkdirTarget, .networkClone])

/-! ### Operation alphabet for the manager's state machine (claim C10) -/

/-- One call to a `GitManager` method, with the external-call outcomes it
observes.  `otherOp` stands for any method that never assigns `self.repo`
or `self.repo_path` (all the query and command operations above: they
read `st` and return a result, so their state transition is the
identity). -/
inductive GMOp where
  | loadOp (ext : ExtCalls) (path : String)
  | initOp (ext : ExtCalls) (path : String) (bare : Bool)
  | cloneOp (ext : ExtCalls) (url target : String)
  | clonePOp (ext : ExtCalls) (url path : String)
  | otherOp

/-- The state transition of one `GitManager` method call. -/
def applyOp (st : GMState) : GMOp → GMState
  | .loadOp ext p => (load_repository st ext p).2
  | .initOp ext p b => (init_repository st ext p b).2
  | .cloneOp ext u t => (clone_repository st ext u t).2
  | .clonePOp ext u p => (clone_repository_with_progress st ext u p).2
  | .otherOp => st

/-- The claimed invariant: `self.repo is None` iff `self.repo_path is
None`. -/
def consistent (st : GMState) : Prop := st.repo = none ↔ st.repo_path = none

/-! ### Concrete fixtures used by witnesses and counterexamples -/

/-- A benign bound-repository oracle: every external call succeeds with a
neutral value. -/
def trivialRepo : RepoModel where
  is_dirty := .ok false
  untracked_files := .ok []
  diffNone := .ok []
  active_branch := .ok "master"
  diffHead := .ok []
  headsNames := .ok ["master"]
  remotesNames := .ok []
  remoteZeroRefs := .ok []
  allRemoteRefs := .ok []
  indexAdd := fun _ => .ok ()
  gitAddAll := .ok ()
  indexCommit := fun _ _ => .ok ()
  gitCommitAmend := fun _ => .ok ()
  remoteLookup := fun _ => .ok ()
  remotePush := fun _ => .ok ()
  remotePull := fun _ => .ok ()
  remoteFetch := .ok ()
  remotePushAllTags := .ok ()
  createHead := fun _ => .ok ()
  checkoutHead := .ok ()
  gitCheckout := fun _ => .ok ()
  createRemote := fun _ _ => .ok ()
  deleteRemote := fun _ => .ok ()
  tagsNames := .ok []
  commitLookup := fun _ => .ok "c0"
  headCommit := .ok "c0"
  createTagRef := fun _ _ _ => .ok ()
  deleteTagRef := fun _ => .ok ()
  iterCommits := fun _ => .ok []
  deleteHead := fun _ => .ok ()
  mergeBase := fun _ _ => .ok ["c0"]
  mergeTree := fun _ _ => .ok ()
  renameHead := fun _ _ => .ok ()

/-- A manager bound to `trivialRepo`. -/
def boundState : GMState := ⟨some trivialRepo, some "/tmp/repo"⟩

/-- External-call oracle under which `git.Repo(path)` always raises
`InvalidGitRepositoryError`. -/
def notARepoExt : ExtCalls where
  gitRepoOpen := fun _ => .invalidGitRepository
  makedirs := fun _ => .ok ()
  gitInitRc := fun _ _ => .ok 0
  cloneFrom := fun _ _ => .error "clone failed"
  ensureParent := fun _ => .ok ()

/-- A bound repository whose `active_branch` access raises (a repository
with no commits yet) and which has one untracked file. -/
def noHeadRepoA : RepoModel :=
  { trivialRepo with
    active_branch := .error "TypeError: HEAD is a detached symbolic reference"
    untracked_files := .ok ["a.txt"] }

/-- Manager state bound to `noHeadRepoA`. -/
def noHeadStateA : GMState := ⟨some noHeadRepoA, some "/tmp/r1"⟩

/-- A freshly initialised repository with no commits: `active_branch`
raises, the branch list is empty, one untracked file `b.txt`. -/
def noHeadRepoB : RepoModel :=
  { trivialRepo with
    active_branch := .error "ValueError: Reference does not exist"
    headsNames := .ok []
    untracked_files := .ok ["b.txt"] }

/-- Manager state bound to `noHeadRepoB`. -/
def noHeadStateB : GMState := ⟨some noHeadRepoB, some "/tmp/r2"⟩

/-- A repository with current branch `main` and a second branch `dev`,
whose external tool refuses to delete the checked-out branch (what `git
branch -d` does). -/
def twoBranchRepo : RepoModel :=
  { trivialRepo with
    active_branch := .ok "main"
    headsNames := .ok ["main", "dev"]
    deleteHead := fun n =>
      if n = "main" then
        .error "GitCommandError: cannot delete branch main checked out"
      else .ok () }

/-- Manager state bound to `twoBranchRepo`. -/
def twoBranchState : GMState := ⟨some twoBranchRepo, some "/tmp/r3"⟩

/-- Like `twoBranchRepo`, but the external tool deletes any branch
without complaint. -/
def permissiveDeleteRepo : RepoModel :=
  { twoBranchRepo with deleteHead := fun _ => .ok () }

/-- Manager state bound to `permissiveDeleteRepo`. -/
def permissiveDeleteState : GMState :=
  ⟨some permissiveDeleteRepo, some "/tmp/r4"⟩

/-- The merge scenario of the spec: branches `main` (current) and
`feature` both pointing at commit `c0`; every external merge primitive
succeeds. -/
def mergeScenarioRepo : RepoModel :=
  { trivialRepo with
    active_branch := .ok "main"
    headsNames := .ok ["main", "feature"]
    mergeBase := fun _ _ => .ok ["c0"]
    headCommit := .ok "c0"
    commitLookup := fun _ => .ok "c0" }

/-- Manager state bound to `mergeScenarioRepo`. -/
def mergeScenarioState : GMState := ⟨some mergeScenarioRepo, some "/tmp/r5"⟩

/-! ## Helper lemmas -/

/-- Anything accepted by the branch-name validator has none of the
rejected shapes. -/
theorem valid_branch_name_spec (name : String)
    (h : is_valid_branch_name name = true) :
    invalid_chars.any (fun c => name.toList.contains c) = false ∧
    (startsChar name '.' || startsChar name '/'
      || endsChar name '.' || endsChar name '/') = false ∧
    containsSub ['.', '.'] name.toList = false ∧
    pyStrip name ≠ "" := by
  unfold is_valid_branch_name at h
  by_cases h1 : invalid_chars.any (fun c => name.toList.contains c) = true
  · rw [if_pos h1] at h; cases h
  · rw [if_neg h1] at h
    by_cases h2 : (startsChar name '.' || startsChar name '/'
        || endsChar name '.' || endsChar name '/') = true
    · rw [if_pos h2] at h; cases h
    · rw [if_neg h2] at h
      by_cases h3 : containsSub ['.', '.'] name.toList = true
      · rw [if_pos h3] at h; cases h
      · rw [if_neg h3] at h
        by_cases h4 : pyStrip name = ""
        · rw [if_pos h4] at h; cases h
        · exact ⟨Bool.eq_false_iff.mpr h1, Bool.eq_false_iff.mpr h2,
            Bool.eq_false_iff.mpr h3, h4⟩

/-- State shape of `load_repository`: unchanged, fully cleared, or fully
set. -/
theorem load_state_cases (st : GMState) (ext : ExtCalls) (p : String) :
    (load_repository st ext p).2 = st ∨
    (load_repository st ext p).2 = ⟨none, none⟩ ∨
    ∃ r q, (load_repository st ext p).2 = ⟨some r, some q⟩ := by
  cases hg : ext.gitRepoOpen p with
  | ok r => exact Or.inr (Or.inr ⟨r, p, by simp [load_repository, hg]⟩)
  | invalidGitRepository => exact Or.inr (Or.inl (by simp [load_repository, hg]))
  | noSuchPath => exact Or.inr (Or.inl (by simp [load_repository, hg]))
  | otherExn e => exact Or.inl (by simp [load_repository, hg])

/-- State shape of `init_repository`. -/
theorem init_state_cases (st : GMState) (ext : ExtCalls) (p : String) (b : Bool) :
    (init_repository st ext p b).2 = st ∨
    (init_repository st ext p b).2 = ⟨none, none⟩ ∨
    ∃ r q, (init_repository st ext p b).2 = ⟨some r, some q⟩ := by
  unfold init_repository
  cases hm : ext.makedirs p with
  | error e => exact Or.inl rfl
  | ok u =>
    cases hi : ext.gitInitRc p b with
    | error e => exact Or.inl rfl
    | ok rc =>
      by_cases hrc : rc = 0
      · have h2 : (match load_repository st ext p with
            | (.ok _, st2) => ((true : Bool), st2)
            | (.error _, st2) => ((false : Bool), st2)).2
            = (load_repository st ext p).2 := by
          rcases hld : load_repository st ext p with ⟨res, st2⟩
          cases res <;> rfl
        simpa [hrc, h2] using load_state_cases st ext p
      · simp [hrc]

/-- State shape of `clone_repository`. -/
theorem clone_state_cases (st : GMState) (ext : ExtCalls) (u t : String) :
    (clone_repository st ext u t).2 = st ∨
    (clone_repository st ext u t).2 = ⟨none, none⟩ ∨
    ∃ r q, (clone_repository st ext u t).2 = ⟨some r, some q⟩ := by
  cases hc : ext.cloneFrom u t with
  | ok r => exact Or.inr (Or.inr ⟨r, t, by simp [clone_repository, hc]⟩)
  | error e => exact Or.inl (by simp [clone_repository, hc])

/-- State shape of `clone_repository_with_progress`. -/
theorem cloneP_state_cases (st : GMState) (ext : ExtCalls) (u p : String) :
    (clone_repository_with_progress st ext u p).2 = st ∨
    (clone_repository_with_progress st ext u p).2 = ⟨none, none⟩ ∨
    ∃ r q, (clone_repository_with_progress st ext u p).2 = ⟨some r, some q⟩ := by
  unfold clone_repository_with_progress
  cases he : ext.ensureParent p with
  | error e => exact Or.inl rfl
  | ok u2 =>
    cases hc : ext.cloneFrom u p with
    | error e => exact Or.inl rfl
    | ok r =>
      have h2 : (match load_repository st ext p with
          | (.ok _, st2) => ((true : Bool), st2)
          | (.error _, st2) => ((false : Bool), st2)).2
          = (load_repository st ext p).2 := by
        rcases hld : load_repository st ext p with ⟨res, st2⟩
        cases res <;> rfl
      simpa [h2] using load_state_cases st ext p

/-- Every operation either leaves the state untouched, clears both
fields, or sets both fields. -/
theorem applyOp_cases (st : GMState) (op : GMOp) :
    applyOp st op = st ∨ applyOp st op = ⟨none, none⟩ ∨
    ∃ r p, applyOp st op = ⟨some r, some p⟩ := by
  cases op with
  | loadOp ext p => exact load_state_cases st ext p
  | initOp ext p b => exact init_state_cases st ext p b
  | cloneOp ext u t => exact clone_state_cases st ext u t
  | clonePOp ext u p => exact cloneP_state_cases st ext u p
  | otherOp => exact Or.inl rfl

/-- `consistent` is preserved by every operation. -/
theorem consistent_applyOp (st : GMState) (op : GMOp) (h : consistent st) :
    consistent (applyOp st op) := by
  rcases applyOp_cases st op with he | he | ⟨r, q, he⟩ <;> rw [he]
  · exact h
  · simp [consistent]
  · simp [consistent]

/-- `consistent` holds along any operation sequence. -/
theorem consistent_foldl (ops : List GMOp) :
    ∀ st : GMState, consistent st → consistent (ops.foldl applyOp st) := by
  induction ops with
  | nil => exact fun st h => h
  | cons op rest ih => exact fun st h => ih _ (consistent_applyOp st op h)

/-! ## Claim theorems -/

/-- C2: every `GitManager` operation other than bind/init/clone, called
while the handle is unbound (`self.repo is None`), returns its designated
not-bound failure value (`False` / `{}` / `[]` / `""`) without raising:
the unbound check is the first statement of each method and short-circuits
before any external call. -/
theorem C2_unbound_operations_fail (st : GMState) (h : st.repo = none) :
    get_status st = .empty ∧
    (∀ ps, add_files st ps = false) ∧
    (∀ p, add_file st p = false) ∧
    stage_all st = false ∧
    (∀ m an ae, commit st m an ae = false) ∧
    (∀ rn bn, push st rn bn = false) ∧
    (∀ rn bn, pull st rn bn = false) ∧
    (∀ n c, create_branch st n c = false) ∧
    (∀ n, checkout_branch st n = false) ∧
    get_remotes st = [] ∧
    (∀ rn bn, push_to_remote st rn bn = false) ∧
    (∀ rn bn, pull_from_remote st rn bn = false) ∧
    (∀ rn, fetch_from_remote st rn = false) ∧
    (∀ n u, add_remote st n u = false) ∧
    (∀ n, remove_remote st n = false) ∧
    get_tags st = [] ∧
    (∀ t m c, create_tag st t m c = false) ∧
    (∀ t, delete_tag st t = false) ∧
    (∀ t rn, push_tag st t rn = false) ∧
    (∀ rn, push_all_tags st rn = false) ∧
    (∀ n, get_commit_history st n = []) ∧
    get_branches st = [] ∧
    get_current_branch st = "" := by
  refine ⟨by simp [get_status, h], fun ps => by simp [add_files, h],
    fun p => by simp [add_file, add_files, h], by simp [stage_all, h],
    fun m an ae => by simp [commit, h], fun rn bn => by simp [push, h],
    fun rn bn => by simp [pull, h], fun n c => by simp [create_branch, h],
    fun n => by simp [checkout_branch, h], by simp [get_remotes, h],
    fun rn bn => by simp [push_to_remote, h],
    fun rn bn => by simp [pull_from_remote, h],
    fun rn => by simp [fetch_from_remote, h],
    fun n u => by simp [add_remote, h], fun n => by simp [remove_remote, h],
    by simp [get_tags, h], fun t m c => by simp [create_tag, h],
    fun t => by simp [delete_tag, h], fun t rn => by simp [push_tag, h],
    fun rn => by simp [push_all_tags, h],
    fun n => by simp [get_commit_history, h], by simp [get_branches, h],
    by simp [get_current_branch, h]⟩

/-- C2 witness: the freshly constructed manager is unbound and its
operations return their failure values. -/
theorem C2_unbound_operations_fail_witness :
    get_status initialState = .empty ∧
    commit initialState "m" none none = false ∧
    get_current_branch initialState = "" :=
  ⟨(C2_unbound_operations_fail initialState rfl).1,
   (C2_unbound_operations_fail initialState rfl).2.2.2.2.1 "m" none none,
   (C2_unbound_operations_fail initialState rfl).2.2.2.2.2.2.2.2.2.2.2.2.2.2.2.2.2.2.2.2.2.2⟩

/-- C5: for any path the external tool classifies as not a repository
(`InvalidGitRepositoryError` or `NoSuchPathError`), `load_repository`
returns `False` and clears both `self.repo` and `self.repo_path` — also
when the manager was previously bound to another repository. -/
theorem C5_failed_bind_unbinds (st : GMState) (ext : ExtCalls) (path : String)
    (h : ext.gitRepoOpen path = .invalidGitRepository ∨
         ext.gitRepoOpen path = .noSuchPath) :
    load_repository st ext path = (.ok false, ⟨none, none⟩) := by
  rcases h with h | h <;> simp [load_repository, h]

/-- C5 witness: a previously bound manager attempting to bind a
non-repository path ends unbound with a `False` result. -/
theorem C5_failed_bind_unbinds_witness :
    load_repository boundState notARepoExt "/nowhere" =
      (.ok false, ⟨none, none⟩) :=
  C5_failed_bind_unbinds boundState notARepoExt "/nowhere" (Or.inl rfl)

/-- C6: for every syntactically invalid url, `CloneWorker.run` reports
failure before touching the filesystem or the network: the returned
effect trace contains neither a target-directory creation nor a clone
attempt. -/
theorem C6_invalid_url_fails_fast (url target : String) (env : CloneEnv)
    (h : is_valid_git_url url = false) :
    clone_worker_run url target env = ((false, "invalid url"), []) ∧
    CloneEvent.mkdirTarget ∉ (clone_worker_run url target env).2 ∧
    CloneEvent.networkClone ∉ (clone_worker_run url target env).2 := by
  have he : clone_worker_run url target env = ((false, "invalid url"), []) := by
    simp [clone_worker_run, h]
  exact ⟨he, by simp [he], by simp [he]⟩

/-- C6 witness: `clone("not-a-url", "/tmp/x")` fails with no directory
creation and no network attempt, for a filesystem where `/tmp/x` is
absent. -/
theorem C6_invalid_url_fails_fast_witness :
    clone_worker_run "not-a-url" "/tmp/x"
        ⟨false, false, .ok (), notARepoExt⟩ = ((false, "invalid url"), []) :=
  (C6_invalid_url_fails_fast "not-a-url" "/tmp/x"
    ⟨false, false, .ok (), notARepoExt⟩ (by decide)).1

/-- C10: from construction (`repo = None`, `repo_path = None`) through any
sequence of operations, `self.repo` is `None` exactly when
`self.repo_path` is `None`; moreover every single operation either leaves
both fields untouched, clears both, or sets both. -/
theorem C10_repo_path_consistent :
    (∀ ops : List GMOp, consistent (ops.foldl applyOp initialState)) ∧
    (∀ (st : GMState) (op : GMOp),
      applyOp st op = st ∨ applyOp st op = ⟨none, none⟩ ∨
        ∃ r p, applyOp st op = ⟨some r, some p⟩) :=
  ⟨fun ops => consistent_foldl ops initialState (by simp [consistent, initialState]),
   applyOp_cases⟩

/-- C1 counterexample: a bound repository whose current-branch sub-query
raises (no commits yet).  `get_status` returns a snapshot whose
`current_branch` is the non-empty default `"master"` — the failing
sub-query's field is not set to empty as the claim states. -/
theorem C1_counterexample_master_not_empty :
    get_status noHeadStateA =
      .snapshot { is_dirty := false, untracked_files := ["a.txt"],
                  modified_files := [], current_branch := "master",
                  local_branches := ["master"], remote_branches := [],
                  staged_files := [] } ∧ ("master" : String) ≠ "" :=
  ⟨rfl, by decide⟩

/-- C1 (amended): `get_status` never raises.  When the dirty flag,
untracked files and modified files are all obtained, a snapshot is
returned that carries them, with a failing staged-files, local-branches
or remote-branches sub-query defaulted to the empty list and a failing
current-branch sub-query defaulted to `"master"` (not to empty); when
computing the dirty flag, untracked files or modified files itself
fails, the whole call returns the empty dict instead of a partially
populated snapshot. -/
theorem C1_status_degradation (st : GMState) (r : RepoModel)
    (hr : st.repo = some r) :
    (∀ d u m, r.is_dirty = .ok d → r.untracked_files = .ok u →
      r.diffNone = .ok m →
      ∃ s, get_status st = .snapshot s ∧
        s.is_dirty = d ∧ s.untracked_files = u ∧ s.modified_files = m ∧
        ((∃ e, r.active_branch = .error e) → s.current_branch = "master") ∧
        (∀ b, r.active_branch = .ok b → s.current_branch = b) ∧
        ((∃ e, r.diffHead = .error e) → s.staged_files = []) ∧
        (∀ l, r.diffHead = .ok l → s.staged_files = l) ∧
        ((∃ e, r.headsNames = .error e) → s.local_branches = []) ∧
        (∀ l, r.headsNames = .ok l → s.local_branches = l) ∧
        ((∃ e, r.remotesNames = .error e) → s.remote_branches = []) ∧
        ((∃ e, r.remoteZeroRefs = .error e) → s.remote_branches = [])) ∧
    (((∃ e, r.is_dirty = .error e) ∨ (∃ e, r.untracked_files = .error e) ∨
        (∃ e, r.diffNone = .error e)) → get_status st = .empty) := by
  constructor
  · intro d u m hd hu hm
    have hs : get_status st = .snapshot
        { is_dirty := d, untracked_files := u, modified_files := m,
          current_branch :=
            match r.active_branch with
            | .ok b => b
            | .error _ => "master",
          local_branches :=
            match r.headsNames with
            | .ok l => l
            | .error _ => [],
          remote_branches :=
            match r.remotesNames with
            | .ok [] => []
            | .ok (_ :: _) =>
              match r.remoteZeroRefs with
              | .ok l => l
              | .error _ => []
            | .error _ => [],
          staged_files :=
            match r.diffHead with
            | .ok l => l
            | .error _ => [] } := by
      simp [get_status, hr, hd, hu, hm]
    refine ⟨_, hs, rfl, rfl, rfl,
      ?_, ?_, ?_, ?_, ?_, ?_, ?_, ?_⟩
    · rintro ⟨e, he⟩; simp [he]
    · intro b hb; simp [hb]
    · rintro ⟨e, he⟩; simp [he]
    · intro l hl; simp [hl]
    · rintro ⟨e, he⟩; simp [he]
    · intro l hl; simp [hl]
    · rintro ⟨e, he⟩; simp [he]
    · rintro ⟨e, he⟩
      cases hn : r.remotesNames with
      | error e2 => simp [hn]
      | ok l => cases l with
        | nil => simp [hn]
        | cons a t => simp [hn, he]
  · rintro (⟨e, he⟩ | ⟨e, he⟩ | ⟨e, he⟩) <;>
      cases hd : r.is_dirty <;>
      cases hu : r.untracked_files <;>
      simp_all [get_status]

/-- C1 witness: on a benign bound repository the snapshot carries the
sub-query results, with all degradation clauses available. -/
theorem C1_status_degradation_witness :
    ∃ s, get_status boundState = .snapshot s ∧
      s.is_dirty = false ∧ s.untracked_files = [] ∧ s.modified_files = [] ∧
      ((∃ e, trivialRepo.active_branch = .error e) → s.current_branch = "master") ∧
      (∀ b, trivialRepo.active_branch = .ok b → s.current_branch = b) ∧
      ((∃ e, trivialRepo.diffHead = .error e) → s.staged_files = []) ∧
      (∀ l, trivialRepo.diffHead = .ok l → s.staged_files = l) ∧
      ((∃ e, trivialRepo.headsNames = .error e) → s.local_branches = []) ∧
      (∀ l, trivialRepo.headsNames = .ok l → s.local_branches = l) ∧
      ((∃ e, trivialRepo.remotesNames = .error e) → s.remote_branches = []) ∧
      ((∃ e, trivialRepo.remoteZeroRefs = .error e) → s.remote_branches = []) :=
  (C1_status_degradation boundState trivialRepo rfl).1 false [] [] rfl rfl rfl

/-- C9 counterexample: a bound repository with no commits (active-branch
query raises, branch list empty).  The snapshot's current-branch field is
populated with `"master"` rather than being absent or empty. -/
theorem C9_counterexample_branch_field_populated :
    get_status noHeadStateB =
      .snapshot { is_dirty := false, untracked_files := ["b.txt"],
                  modified_files := [], current_branch := "master",
                  local_branches := [], remote_branches := [],
                  staged_files := [] } ∧ ("master" : String) ≠ "" :=
  ⟨rfl, by decide⟩

/-- C9 (amended): for a bound repository whose active-branch query raises
(a repository with no commits yet), the current-branch field of the
returned snapshot is populated with the default `"master"`. -/
theorem C9_no_commits_default_master (st : GMState) (r : RepoModel)
    (hr : st.repo = some r) (e : PyExn) (hb : r.active_branch = .error e)
    (d : Bool) (u m : List String) (hd : r.is_dirty = .ok d)
    (hu : r.untracked_files = .ok u) (hm : r.diffNone = .ok m) :
    ∃ s, get_status st = .snapshot s ∧ s.current_branch = "master" := by
  have hs : get_status st = .snapshot
      { is_dirty := d, untracked_files := u, modified_files := m,
        current_branch :=
          match r.active_branch with
          | .ok b => b
          | .error _ => "master",
        local_branches :=
          match r.headsNames with
          | .ok l => l
          | .error _ => [],
        remote_branches :=
          match r.remotesNames with
          | .ok [] => []
          | .ok (_ :: _) =>
            match r.remoteZeroRefs with
            | .ok l => l
            | .error _ => []
          | .error _ => [],
        staged_files :=
          match r.diffHead with
          | .ok l => l
          | .error _ => [] } := by
    simp [get_status, hr, hd, hu, hm]
  exact ⟨_, hs, by simp [hb]⟩

/-- C9 witness: the concrete no-commit repository yields `"master"`. -/
theorem C9_no_commits_default_master_witness :
    ∃ s, get_status noHeadStateB = .snapshot s ∧ s.current_branch = "master" :=
  C9_no_commits_default_master noHeadStateB noHeadRepoB rfl
    "ValueError: Reference does not exist" rfl false ["b.txt"] [] rfl rfl rfl

/-- C3 counterexample: the core `GitManager.commit` performs no message
or staged-changes validation.  On a bound repository whose external
`index.commit` succeeds (as GitPython does for any message), a blank
message and a whitespace message both produce a successful commit, and a
non-empty message with nothing staged (`index.diff("HEAD")` empty) also
produces a commit instead of a NothingStaged failure. -/
theorem C3_counterexample_core_commit_unvalidated :
    commit boundState "" none none = true ∧
    commit boundState "   " none none = true ∧
    trivialRepo.diffHead = .ok [] ∧
    commit boundState "fix" none none = true :=
  ⟨rfl, rfl, rfl, rfl⟩

/-- C3 (amended): the blank-message and nothing-staged checks live only
in the GUI handler `commit_changes_enhanced`, which returns with a
warning and no commit call in those cases (nothing-staged only when not
amending); `GitManager.commit` itself forwards any message — blank
included — to the external `index.commit`. -/
theorem C3_commit_checks_in_gui_only (st : GMState) (text : String)
    (amendChecked : Bool) :
    (pyStrip text = "" →
      commit_changes_enhanced st text amendChecked
        = (.emptyMessageWarning, [])) ∧
    (∀ r, st.repo = some r → r.diffHead = .ok [] → amendChecked = false →
      pyStrip text ≠ "" →
      commit_changes_enhanced st text amendChecked
        = (.nothingStagedWarning, [])) ∧
    (∀ r m, st.repo = some r → r.indexCommit m none = .ok () →
      commit st m none none = true) := by
  refine ⟨?_, ?_, ?_⟩
  · intro h; simp [commit_changes_enhanced, h]
  · intro r hr hdh ha hne
    subst ha
    simp [commit_changes_enhanced, hne, hr, hdh]
  · intro r m hr hic
    simp [commit, hr, hic]

/-- C3 witness: concrete blank-message and nothing-staged rejections in
the GUI flow, and a blank-message success in the core. -/
theorem C3_commit_checks_in_gui_only_witness :
    commit_changes_enhanced boundState "   " false = (.emptyMessageWarning, []) ∧
    commit_changes_enhanced boundState "fix" false = (.nothingStagedWarning, []) ∧
    commit boundState "" none none = true :=
  ⟨(C3_commit_checks_in_gui_only boundState "   " false).1 (by decide),
   (C3_commit_checks_in_gui_only boundState "fix" false).2.1 trivialRepo rfl rfl
     rfl (by decide),
   (C3_commit_checks_in_gui_only boundState "" false).2.2 trivialRepo "" rfl rfl⟩

/-- C4 counterexample: `"a\tb"` contains whitespace (a tab character) but
passes the branch-name validation — the code's blacklist contains only
the space character, so the claim "every name that contains whitespace is
rejected" fails. -/
theorem C4_counterexample_tab_accepted :
    Char.isWhitespace '\t' = true ∧ is_valid_branch_name "a\tb" = true := by
  constructor <;> decide

/-- C4 (amended): branch-name validation accepts `"feature/x"` and
rejects every name containing a space or one of `~^:?*[\`, starting or
ending with `.` or `/`, containing `".."`, or blank after stripping (so
`"a b"`, `"a~b"`, `"a..b"`, `".hidden"`, `"trailing/"` and `""` are
rejected); non-space whitespace such as a tab is not rejected; the
validation is applied by the UI branch create and rename flows before
any call into the core (checkout and delete apply no such validation,
nor does the core `create_branch`). -/
theorem C4_branch_name_validation :
    is_valid_branch_name "feature/x" = true ∧
    (∀ name : String,
      invalid_chars.any (fun c => name.toList.contains c) = true →
      is_valid_branch_name name = false) ∧
    (∀ name : String,
      (startsChar name '.' || startsChar name '/'
        || endsChar name '.' || endsChar name '/') = true →
      is_valid_branch_name name = false) ∧
    (∀ name : String, containsSub ['.', '.'] name.toList = true →
      is_valid_branch_name name = false) ∧
    (∀ name : String, pyStrip name = "" →
      is_valid_branch_name name = false) ∧
    is_valid_branch_name "a b" = false ∧
    is_valid_branch_name "a~b" = false ∧
    is_valid_branch_name "a..b" = false ∧
    is_valid_branch_name ".hidden" = false ∧
    is_valid_branch_name "trailing/" = false ∧
    is_valid_branch_name "" = false ∧
    is_valid_branch_name "a\tb" = true ∧
    (∀ (st : GMState) (r : RepoModel) (raw : String) (ans : Bool),
      st.repo = some r → pyStrip raw ≠ "" →
      is_valid_branch_name (pyStrip raw) = false →
      create_branch_ui st (some raw) ans = .invalidNameWarning) ∧
    (∀ (st : GMState) (old raw : String),
      pyStrip raw ≠ "" → pyStrip raw ≠ old →
      is_valid_branch_name (pyStrip raw) = false →
      rename_branch_ui st old (some raw) = .invalidNameWarning) := by
  refine ⟨by decide, ?_, ?_, ?_, ?_, by decide, by decide, by decide, by decide,
    by decide, by decide, by decide, ?_, ?_⟩
  · intro name hany
    cases hv : is_valid_branch_name name
    · rfl
    · have := (valid_branch_name_spec name hv).1
      rw [hany] at this
      exact Bool.noConfusion this
  · intro name hse
    cases hv : is_valid_branch_name name
    · rfl
    · have := (valid_branch_name_spec name hv).2.1
      rw [hse] at this
      exact Bool.noConfusion this
  · intro name hsub
    cases hv : is_valid_branch_name name
    · rfl
    · have := (valid_branch_name_spec name hv).2.2.1
      rw [hsub] at this
      exact Bool.noConfusion this
  · intro name hstrip
    cases hv : is_valid_branch_name name
    · rfl
    · exact absurd hstrip (valid_branch_name_spec name hv).2.2.2
  · intro st r raw ans hr hne hval
    simp [create_branch_ui, hr, hne, hval]
  · intro st old raw hne1 hne2 hval
    cases hsr : st.repo with
    | none => simp [rename_branch_ui, hsr, hne1, hne2, hval]
    | some r => simp [rename_branch_ui, hsr, hne1, hne2, hval]

/-- C4 witness: the UI create and rename flows refuse the invalid name
`"a~b"` on a concrete bound repository. -/
theorem C4_branch_name_validation_witness :
    create_branch_ui boundState (some "a~b") true = .invalidNameWarning ∧
    rename_branch_ui boundState "master" (some "a~b") = .invalidNameWarning :=
  ⟨C4_branch_name_validation.2.2.2.2.2.2.2.2.2.2.2.2.1 boundState trivialRepo
     "a~b" true rfl (by decide) (by decide),
   C4_branch_name_validation.2.2.2.2.2.2.2.2.2.2.2.2.2 boundState "master"
     "a~b" (by decide) (by decide) (by decide)⟩

/-- C7 counterexample: `delete_branch_by_name` invoked on the current
branch `main` performs no current-branch check: the name goes straight to
the external `delete_head`, whose own refusal surfaces as a raw tool
error (not a `CannotDeleteCurrent` classification), and under a tool
that does not refuse, deleting the current branch simply succeeds. -/
theorem C7_counterexample_no_core_guard :
    twoBranchRepo.active_branch = .ok "main" ∧
    delete_branch_by_name twoBranchState "main" true =
      .deleteError "main"
        "GitCommandError: cannot delete branch main checked out" ∧
    permissiveDeleteRepo.active_branch = .ok "main" ∧
    delete_branch_by_name permissiveDeleteState "main" true =
      .deleted "main" := by
  refine ⟨rfl, ?_, rfl, ?_⟩ <;> rfl

/-- C7 (amended): the refusal to delete the current branch exists only in
the UI's `delete_branch` selection handler (an item text starting with
`'* '`); `delete_branch_by_name` — and hence the core — performs no such
check: for any confirmed name, the current branch included, it issues the
external delete and merely forwards the tool's outcome. -/
theorem C7_delete_guard_ui_only (st : GMState) (txt : String)
    (confirm : Bool) (r : RepoModel) (hr : st.repo = some r) :
    (List.isPrefixOf ['*', ' '] txt.toList = true →
      delete_branch st (some txt) confirm = .currentBranchRefusal) ∧
    (∀ name, delete_branch_by_name st name true ≠ .currentBranchRefusal ∧
      (r.deleteHead name = .ok () →
        delete_branch_by_name st name true = .deleted name) ∧
      (∀ e, r.deleteHead name = .error e →
        delete_branch_by_name st name true = .deleteError name e)) := by
  constructor
  · intro h
    simp only [delete_branch]
    rw [if_pos h]
  · intro name
    refine ⟨?_, ?_, ?_⟩
    · cases hdh : r.deleteHead name <;>
        simp [delete_branch_by_name, hr, hdh]
    · intro h; simp [delete_branch_by_name, hr, h]
    · intro e h; simp [delete_branch_by_name, hr, h]

/-- C7 witness: the UI guard fires on the marked selection `"* main"`,
while the name-level deletion of `"main"` is not refused. -/
theorem C7_delete_guard_ui_only_witness :
    delete_branch twoBranchState (some "* main") true = .currentBranchRefusal ∧
    delete_branch_by_name twoBranchState "main" true ≠ .currentBranchRefusal :=
  ⟨(C7_delete_guard_ui_only twoBranchState "* main" true twoBranchRepo rfl).1
     (by decide),
   ((C7_delete_guard_ui_only twoBranchState "* main" true twoBranchRepo
      rfl).2 "main").1⟩

/-- C8 (code bug): in the spec's merge scenario — branches `main`
(current) and `feature` both at commit `c0`, every external merge
primitive succeeding, the user confirming — the handler evaluates
`repo.index.conflicts`, an attribute GitPython's `IndexFile` does not
define; the resulting `AttributeError` is caught and reported as a merge
failure, so the merge commit promised by the claim is never created. -/
theorem C8_merge_conflicts_attribute_bug :
    merge_branch_to_current mergeScenarioState "feature" true =
      .mergeError "AttributeError: IndexFile has no attribute conflicts" ∧
    ∀ ps, merge_branch_to_current mergeScenarioState "feature" true
      ≠ .merged ps := by
  have h : merge_branch_to_current mergeScenarioState "feature" true =
      .mergeError "AttributeError: IndexFile has no attribute conflicts" := rfl
  refine ⟨h, fun ps hps => ?_⟩
  rw [h] at hps
  cases hps

end BakaGit
